import Mathlib

/-!
Shallow embedding of the MCP weather chat client (`src/index.ts`, `src/types.ts`).

The embedding models the `MCPClient` class: `connectToServer` (server-script
dispatch on the path suffix and registry population from the backend tool
catalog) and `processQuery` (the two-round tool-call orchestration loop).
Remote collaborators are passed in explicitly: the first and second chat
completions responses as values, and the tool backend as an invocation
function.  `processQuery` returns a `Trace` recording, in order, the chat
requests performed, the backend invocations performed, and the final result
(`Except` models the thrown-and-rethrown JS errors).
-/

namespace MCPDemo

/-- JSON values: the structured data produced by the JS `JSON.parse` builtin
and consumed by `JSON.stringify`.  Numbers are modelled as rationals (exact
decimal values; the JS float rounding of decimal literals is not modelled). -/
inductive Json where
  | null
  | bool (b : Bool)
  | num (q : Rat)
  | str (s : String)
  | arr (elements : List Json)
  | obj (fields : List (String × Json))

/-- JSON whitespace characters. -/
def jsonWs (c : Char) : Bool :=
  c = ' ' || c = '\t' || c = '\n' || c = '\r'

/-- Drop leading JSON whitespace. -/
def skipWs (cs : List Char) : List Char := cs.dropWhile jsonWs

/-- Decimal digit test. -/
def isDigitChar (c : Char) : Bool := '0' ≤ c && c ≤ '9'

/-- Numeric value of a decimal digit character. -/
def digitVal (c : Char) : Nat := c.toNat - '0'.toNat

/-- Read a digit string as a natural number. -/
def digitsToNat (ds : List Char) : Nat :=
  ds.foldl (fun acc c => acc * 10 + digitVal c) 0

/-- Numeric value of a hexadecimal digit character, if any. -/
def hexVal (c : Char) : Option Nat :=
  if '0' ≤ c ∧ c ≤ '9' then some (c.toNat - '0'.toNat)
  else if 'a' ≤ c ∧ c ≤ 'f' then some (c.toNat - 'a'.toNat + 10)
  else if 'A' ≤ c ∧ c ≤ 'F' then some (c.toNat - 'A'.toNat + 10)
  else none

/-- Resolution of a single-character JSON string escape. -/
def unescapeChar (c : Char) : Option Char :=
  if c = '\"' then some '\"'
  else if c = '\\' then some '\\'
  else if c = '/' then some '/'
  else if c = 'b' then some (Char.ofNat 8)
  else if c = 'f' then some (Char.ofNat 12)
  else if c = 'n' then some '\n'
  else if c = 'r' then some '\r'
  else if c = 't' then some '\t'
  else none

/-- Parse the body of a JSON string, after the opening quote: returns the
decoded characters and the remainder after the closing quote. -/
def parseStringBody : List Char → Option (List Char × List Char)
  | [] => none
  | '\"' :: rest => some ([], rest)
  | '\\' :: 'u' :: h1 :: h2 :: h3 :: h4 :: rest =>
    match hexVal h1, hexVal h2, hexVal h3, hexVal h4 with
    | some a, some b, some c, some d =>
      match parseStringBody rest with
      | some (out, rem) => some (Char.ofNat (((a * 16 + b) * 16 + c) * 16 + d) :: out, rem)
      | none => none
    | _, _, _, _ => none
  | '\\' :: e :: rest =>
    match unescapeChar e with
    | some ec =>
      match parseStringBody rest with
      | some (out, rem) => some (ec :: out, rem)
      | none => none
    | none => none
  | c :: rest =>
    match parseStringBody rest with
    | some (out, rem) => some (c :: out, rem)
    | none => none

/-- Split leading decimal digits from the rest. -/
def splitDigits (cs : List Char) : List Char × List Char :=
  (cs.takeWhile isDigitChar, cs.dropWhile isDigitChar)

/-- Parse an optionally signed digit run, as used in a JSON number exponent. -/
def parseSignedDigits (cs : List Char) : Option (Int × List Char) :=
  match cs with
  | '+' :: rest =>
    let (ds, r) := splitDigits rest
    if ds.isEmpty then none else some ((digitsToNat ds : Int), r)
  | '-' :: rest =>
    let (ds, r) := splitDigits rest
    if ds.isEmpty then none else some (-(digitsToNat ds : Int), r)
  | _ =>
    let (ds, r) := splitDigits cs
    if ds.isEmpty then none else some ((digitsToNat ds : Int), r)

/-- Parse the optional fractional part of a JSON number (a dot then digits). -/
def parseFracPart (cs : List Char) : Option (List Char × List Char) :=
  match cs with
  | '.' :: rest =>
    let (ds, r) := splitDigits rest
    if ds.isEmpty then none else some (ds, r)
  | _ => some ([], cs)

/-- Parse the optional exponent part of a JSON number. -/
def parseExponentPart (cs : List Char) : Option (Int × List Char) :=
  match cs with
  | 'e' :: rest => parseSignedDigits rest
  | 'E' :: rest => parseSignedDigits rest
  | _ => some (0, cs)

/-- Exact rational value of a JSON number from its parts:
sign, integer digits, fraction digits, decimal exponent. -/
def ratOfParts (sign : Int) (intDs fracDs : List Char) (exp : Int) : Rat :=
  let mantissa : Int := sign * (digitsToNat (intDs ++ fracDs) : Int)
  let e : Int := exp - (fracDs.length : Int)
  if 0 ≤ e then mkRat (mantissa * ((10 : Int) ^ e.toNat)) 1
  else mkRat mantissa ((10 : Nat) ^ (-e).toNat)

/-- Parse a JSON number. -/
def parseNumber (cs : List Char) : Option (Rat × List Char) :=
  let signSplit : Int × List Char :=
    match cs with
    | '-' :: rest => (-1, rest)
    | _ => (1, cs)
  let sign := signSplit.1
  let cs1 := signSplit.2
  let (intDs, cs2) := splitDigits cs1
  if intDs.isEmpty then none
  else
    match parseFracPart cs2 with
    | none => none
    | some (fracDs, cs3) =>
      match parseExponentPart cs3 with
      | none => none
      | some (exp, cs4) => some (ratOfParts sign intDs fracDs exp, cs4)

mutual

/-- Parse one JSON value (fuel-bounded recursive descent); returns the value
and the unconsumed remainder. -/
def parseValue : Nat → List Char → Option (Json × List Char)
  | 0, _ => none
  | fuel + 1, cs =>
    match skipWs cs with
    | 'n' :: 'u' :: 'l' :: 'l' :: rest => some (.null, rest)
    | 't' :: 'r' :: 'u' :: 'e' :: rest => some (.bool true, rest)
    | 'f' :: 'a' :: 'l' :: 's' :: 'e' :: rest => some (.bool false, rest)
    | '\"' :: rest =>
      match parseStringBody rest with
      | some (out, rem) => some (.str (String.mk out), rem)
      | none => none
    | '[' :: rest =>
      match skipWs rest with
      | ']' :: rem => some (.arr [], rem)
      | _ =>
        match parseElems fuel rest with
        | some (xs, rem) => some (.arr xs, rem)
        | none => none
    | '\x7b' :: rest =>
      match skipWs rest with
      | '\x7d' :: rem => some (.obj [], rem)
      | _ =>
        match parseFields fuel rest with
        | some (fs, rem) => some (.obj fs, rem)
        | none => none
    | other =>
      match parseNumber other with
      | some (q, rem) => some (.num q, rem)
      | none => none

/-- Parse one or more comma-separated JSON array elements up to the closing
bracket. -/
def parseElems : Nat → List Char → Option (List Json × List Char)
  | 0, _ => none
  | fuel + 1, cs =>
    match parseValue fuel cs with
    | none => none
    | some (v, rest) =>
      match skipWs rest with
      | ',' :: rest2 =>
        match parseElems fuel rest2 with
        | some (vs, rem) => some (v :: vs, rem)
        | none => none
      | ']' :: rem => some ([v], rem)
      | _ => none

/-- Parse one or more comma-separated JSON object fields up to the closing
brace. -/
def parseFields : Nat → List Char → Option (List (String × Json) × List Char)
  | 0, _ => none
  | fuel + 1, cs =>
    match skipWs cs with
    | '\"' :: rest =>
      match parseStringBody rest with
      | none => none
      | some (key, rest2) =>
        match skipWs rest2 with
        | ':' :: rest3 =>
          match parseValue fuel rest3 with
          | none => none
          | some (v, rest4) =>
            match skipWs rest4 with
            | ',' :: rest5 =>
              match parseFields fuel rest5 with
              | some (fs, rem) => some ((String.mk key, v) :: fs, rem)
              | none => none
            | '\x7d' :: rem => some ([(String.mk key, v)], rem)
            | _ => none
        | _ => none
    | _ => none

end

/-- The JS `JSON.parse` builtin, modelled for standard JSON inputs: `none`
stands for the `SyntaxError` thrown on unparseable input. -/
def Json.parse (s : String) : Option Json :=
  match parseValue (2 * s.length + 2) s.data with
  | some (v, rest) => if skipWs rest = [] then some v else none
  | none => none

/-- Escape one character for inclusion in a rendered JSON string. -/
def escapeJsonChar (c : Char) : List Char :=
  if c = '\"' then ['\\', '\"']
  else if c = '\\' then ['\\', '\\']
  else if c = '\n' then ['\\', 'n']
  else if c = '\t' then ['\\', 't']
  else if c = '\r' then ['\\', 'r']
  else [c]

/-- Escape a string for inclusion in rendered JSON. -/
def escapeJsonString (s : String) : String :=
  String.mk (s.data.flatMap escapeJsonChar)

/-- Rendering of a JSON number.  (Simplified relative to the JS float
formatter; no verified claim depends on the rendered text of a number.) -/
def renderNum (q : Rat) : String :=
  if q.den = 1 then toString q.num else toString q.num ++ "/" ++ toString q.den

mutual

/-- The JS `JSON.stringify` builtin, modelled (no indentation argument). -/
def Json.stringify : Json → String
  | .null => "null"
  | .bool true => "true"
  | .bool false => "false"
  | .num q => renderNum q
  | .str s => "\"" ++ escapeJsonString s ++ "\""
  | .arr xs => "[" ++ stringifyElems xs ++ "]"
  | .obj fs => "\x7b" ++ stringifyFields fs ++ "\x7d"

/-- Comma-joined rendering of JSON array elements. -/
def stringifyElems : List Json → String
  | [] => ""
  | [x] => Json.stringify x
  | x :: xs => Json.stringify x ++ "," ++ stringifyElems xs

/-- Comma-joined rendering of JSON object fields. -/
def stringifyFields : List (String × Json) → String
  | [] => ""
  | [(k, v)] => "\"" ++ escapeJsonString k ++ "\":" ++ Json.stringify v
  | (k, v) :: fs => "\"" ++ escapeJsonString k ++ "\":" ++ Json.stringify v ++ "," ++ stringifyFields fs

end

/-! ## Data model of the chat API exchange (`src/index.ts`) -/

/-- Message roles of the chat completions API. -/
inductive Role where
  | system
  | user
  | assistant
  | tool
deriving Repr, DecidableEq

/-- The `function` part of one tool call emitted by the model:
`toolCall.function.name` and `toolCall.function.arguments` (a JSON text). -/
structure ToolCallFunction where
  name : String
  arguments : String
deriving Repr, DecidableEq

/-- One structured tool-call request emitted by the model. -/
structure ToolCall where
  id : String
  function : ToolCallFunction
deriving Repr, DecidableEq

/-- One `ChatCompletionMessageParam` of the transcript.  `tool_calls` is
`none` when the field is absent (JS `undefined`/`null`, falsy) and
`some calls` when present — including present-but-empty, which is truthy in
the JS condition `if (assistantMessage.tool_calls)`. -/
structure ChatMessage where
  role : Role
  content : Option String := none
  tool_calls : Option (List ToolCall) := none
  tool_call_id : Option String := none
deriving Repr, DecidableEq

/-- One raw tool descriptor from the backend's `listTools()` catalog.
`name` is `Option` so that a malformed raw entry lacking a name is
representable, as the registry-population claims require. -/
structure RawTool where
  name : Option String := none
  description : Option String := none
  inputSchema : Json := Json.null

/-- The `function` part of one registered tool (`this.tools` entry). -/
structure ToolFunctionDecl where
  name : Option String
  description : String
  parameters : Json

/-- One registered tool in `this.tools` (OpenAI `ChatCompletionTool`). -/
structure ChatTool where
  type : String
  function : ToolFunctionDecl

/-- The fixed latitude/longitude parameter schema hard-coded at
`src/index.ts` lines 71–78 (and again at lines 114–121). -/
def fixedParametersSchema : Json :=
  .obj [("type", .str "object"),
        ("properties", .obj
          [("latitude", .obj [("type", .str "number"), ("description", .str "纬度")]),
           ("longitude", .obj [("type", .str "number"), ("description", .str "经度")])]),
        ("required", .arr [.str "latitude", .str "longitude"])]

/-- Conversion of one raw catalog entry into a registered tool
(`src/index.ts` lines 66–80): the name is carried over as-is, the
description defaults to the empty string, and the parameters are the fixed
latitude/longitude schema — the raw entry's `inputSchema` is ignored. -/
def convertRawTool (t : RawTool) : ChatTool :=
  { type := "function",
    function :=
      { name := t.name,
        description := t.description.getD "",
        parameters := fixedParametersSchema } }

/-- Registry population from the backend catalog: a plain `map`, converting
every entry (`this.tools = response.tools.map ...`). -/
def registerTools (rawTools : List RawTool) : List ChatTool :=
  rawTools.map convertRawTool

/-- The JS `String.prototype.endsWith`, modelled as a suffix test on the
character lists. -/
def strEndsWith (s suffix : String) : Bool :=
  suffix.data.isSuffixOf s.data

/-- Successful outcome of `connectToServer`: the command used to spawn the
backend process and the populated tool registry.  An `Except.error` outcome
models the thrown `Error` — thrown before any transport is created or any
process is spawned. -/
structure ConnectOutcome where
  command : String
  registeredTools : List ChatTool

/-- `connectToServer` (`src/index.ts` lines 30–86): checks the server-script
suffix, picks the spawn command, and populates the registry from the given
`listTools()` catalog. -/
def connectToServer (serverPath : String) (rawTools : List RawTool) :
    Except String ConnectOutcome :=
  let isJS := strEndsWith serverPath ".js"
  let isPython := strEndsWith serverPath ".py"
  if !isJS && !isPython then
    .error "Server script must be a .py or .js file"
  else
    let command := if isPython then "python" else "node"
    .ok { command := command, registeredTools := registerTools rawTools }

/-! ## The tool-call orchestration loop (`processQuery`) -/

/-- One tool declaration as sent in the first chat request
(`src/index.ts` lines 109–124): name and description from the registry,
parameters re-hard-coded to the fixed schema, `strict: false`. -/
structure ToolDecl where
  name : Option String
  description : String
  parameters : Json
  strict : Bool

/-- One chat-completion request, restricted to the fields the claims are
about: the model identifier, the transcript, and the tool declarations
(`none` when the request carries no `tools` field, as in the second round).
The constant sampling parameters (temperature 0.7, `top_p` 0.7, ...,
`stream: false`) are the same on every request and are omitted. -/
structure ChatRequest where
  model : String
  messages : List ChatMessage
  tools : Option (List ToolDecl)

/-- The tool declarations of the first request, built from the registry
(`requestParams.tools`, `src/index.ts` lines 109–124). -/
def toolDeclsOf (tools : List ChatTool) : List ToolDecl :=
  tools.map fun t =>
    { name := t.function.name,
      description := t.function.description,
      parameters := fixedParametersSchema,
      strict := false }

/-- The system prompt seeded into every query's transcript. -/
def systemPrompt : String := "你是一个天气助手，可以帮助用户查询天气信息。"

/-- The fresh transcript built per query: one system message, one user
message (`src/index.ts` lines 94–103). -/
def initialMessages (query : String) : List ChatMessage :=
  [{ role := .system, content := some systemPrompt },
   { role := .user, content := some query }]

/-- The model identifier of the first-round request, hard-coded at
`src/index.ts` line 107. -/
def firstRoundModel : String := "deepseek-ai/DeepSeek-V2.5"

/-- The first-round chat request (`requestParams`, lines 106–134). -/
def firstRequest (tools : List ChatTool) (query : String) : ChatRequest :=
  { model := firstRoundModel,
    messages := initialMessages query,
    tools := some (toolDeclsOf tools) }

/-- Process environment, restricted to the variable `processQuery` reads. -/
structure Env where
  OPENAI_MODEL : Option String := none

/-- The model identifier of the second-round request:
`process.env.OPENAI_MODEL || 'gpt-4'` (`src/index.ts` line 172). -/
def secondRoundModel (env : Env) : String :=
  env.OPENAI_MODEL.getD "gpt-4"

/-- The errors that can propagate out of `processQuery`'s dispatch loop:
a `SyntaxError` from `JSON.parse` on unparseable tool arguments, or an
error thrown by `client.callTool`.  Both escape the loop, are logged by the
outer `catch`, and are rethrown to the caller. -/
inductive QueryError where
  | malformedToolArguments (toolName arguments : String)
  | toolExecutionError (toolName cause : String)
deriving Repr, DecidableEq

/-- The tool backend (`this.client.callTool`), as an invocation function:
tool name and parsed arguments in, `Except.error` for a backend failure,
`Except.ok content` for the result's `content` value. -/
abbrev Invoker := String → Json → Except String Json

/-- The assistant message appended per dispatched call: carries exactly
that one call, `content: null` (`src/index.ts` lines 157–161). -/
def toolCallAssistantMsg (c : ToolCall) : ChatMessage :=
  { role := .assistant, content := none, tool_calls := some [c] }

/-- The tool-role message appended per dispatched call: the stringified
result content, correlated by `tool_call_id` (`src/index.ts` lines
163–167). -/
def toolResultMsg (c : ToolCall) (resultContent : Json) : ChatMessage :=
  { role := .tool,
    content := some (Json.stringify resultContent),
    tool_call_id := some c.id }

/-- The sequential dispatch loop over the first response's tool calls
(`src/index.ts` lines 144–168).  For each call in order: parse the
arguments (an unparseable string throws out of the loop), invoke the
backend (a backend error throws out of the loop), then append the
(assistant-call, tool-result) message pair.  Returns the backend
invocations performed in order, the transcript as extended so far, and the
error that escaped the loop, if any. -/
def dispatchToolCalls (invoke : Invoker) (messages : List ChatMessage) :
    List ToolCall → List (String × Json) × List ChatMessage × Option QueryError
  | [] => (([] : List (String × Json)), messages, none)
  | c :: rest =>
    match Json.parse c.function.arguments with
    | none =>
      (([] : List (String × Json)), messages,
       some (.malformedToolArguments c.function.name c.function.arguments))
    | some args =>
      match invoke c.function.name args with
      | .error e =>
        ([(c.function.name, args)], messages,
         some (.toolExecutionError c.function.name e))
      | .ok result =>
        let messages2 := messages ++ [toolCallAssistantMsg c, toolResultMsg c result]
        match dispatchToolCalls invoke messages2 rest with
        | (invs, finalMsgs, err) => ((c.function.name, args) :: invs, finalMsgs, err)

/-- Observable record of one `processQuery` run: the chat requests
performed in order, the backend invocations performed in order, and the
returned answer (or the error rethrown to the caller). -/
structure Trace where
  requests : List ChatRequest
  invocations : List (String × Json)
  result : Except QueryError String

/-- `processQuery` (`src/index.ts` lines 92–188), with the two chat
responses and the backend supplied as values: builds the fresh transcript,
sends the first request (with tool declarations); if the response's
`tool_calls` field is present (JS truthiness: any array, even empty),
dispatches the calls sequentially and sends the extended transcript a
second time without tool declarations, returning the second response's
content (`|| ''`); otherwise returns the first response's content
(`|| ''`).  A dispatch error is rethrown with no second request. -/
def processQuery (env : Env) (tools : List ChatTool) (query : String)
    (resp1 resp2 : ChatMessage) (invoke : Invoker) : Trace :=
  let messages := initialMessages query
  let req1 := firstRequest tools query
  match resp1.tool_calls with
  | some toolCalls =>
    match dispatchToolCalls invoke messages toolCalls with
    | (invs, _, some e) =>
      { requests := [req1], invocations := invs, result := .error e }
    | (invs, finalMsgs, none) =>
      let req2 : ChatRequest :=
        { model := secondRoundModel env, messages := finalMsgs, tools := none }
      { requests := [req1, req2], invocations := invs,
        result := .ok (resp2.content.getD "") }
  | none =>
    { requests := [req1], invocations := [], result := .ok (resp1.content.getD "") }

/-! ## Derived notions used in the claim statements -/

/-- The parsed arguments of a call whose arguments string parses. -/
def parsedArgs (c : ToolCall) : Json :=
  (Json.parse c.function.arguments).getD Json.null

/-- The backend result content for a call whose invocation succeeds. -/
def invokeResult (invoke : Invoker) (c : ToolCall) : Json :=
  match invoke c.function.name (parsedArgs c) with
  | .ok r => r
  | .error _ => Json.null

/-- A call dispatches cleanly: its arguments parse, and the backend
invocation on the parsed arguments succeeds. -/
def callSucceeds (invoke : Invoker) (c : ToolCall) : Prop :=
  (∃ p, Json.parse c.function.arguments = some p) ∧
  (∃ r, invoke c.function.name (parsedArgs c) = .ok r)

/-- The (assistant-call, tool-result) transcript pair appended for one
cleanly dispatched call. -/
def transcriptPair (invoke : Invoker) (c : ToolCall) : List ChatMessage :=
  [toolCallAssistantMsg c, toolResultMsg c (invokeResult invoke c)]

/-! ## Concrete example values used by the witnesses and counterexamples -/

/-- A backend that answers every invocation with a weather text block. -/
def wInvoke : Invoker := fun _ _ => .ok (Json.str "Sunny, 22C")

/-- A backend whose every invocation fails. -/
def failingInvoke : Invoker := fun _ _ => .error "backend exploded"

/-- First example tool call, with parseable JSON arguments. -/
def wCall1 : ToolCall :=
  { id := "call-1",
    function := { name := "get_forecast",
                  arguments := "\x7b\"latitude\": 1, \"longitude\": 2\x7d" } }

/-- Second example tool call, with parseable JSON arguments. -/
def wCall2 : ToolCall :=
  { id := "call-2",
    function := { name := "get_forecast",
                  arguments := "\x7b\"latitude\": 3, \"longitude\": 4\x7d" } }

/-- A tool call whose arguments string is not parseable JSON. -/
def badCall : ToolCall :=
  { id := "call-bad",
    function := { name := "get_forecast", arguments := "not json" } }

/-- A tool call carrying the coordinates of the argument round-trip claim. -/
def coordCall : ToolCall :=
  { id := "call-geo",
    function := { name := "get_forecast",
                  arguments := "\x7b\"latitude\": 37.7, \"longitude\": -122.4\x7d" } }

/-- A first response requesting the two example calls. -/
def wResp1 : ChatMessage := { role := .assistant, tool_calls := some [wCall1, wCall2] }

/-- A second response carrying a final text answer. -/
def wResp2 : ChatMessage := { role := .assistant, content := some "It is sunny." }

/-- A response with text content and a present-but-empty `tool_calls` array. -/
def c2Resp1 : ChatMessage :=
  { role := .assistant, content := some "direct answer", tool_calls := some [] }

/-- A second response with text content, to distinguish the two rounds. -/
def c2Resp2 : ChatMessage := { role := .assistant, content := some "second round answer" }

/-- A response with neither content nor a `tool_calls` field. -/
def c2RespNone : ChatMessage := { role := .assistant }

/-- A first response whose first call has malformed arguments and whose
second call would dispatch cleanly. -/
def c3Resp1 : ChatMessage := { role := .assistant, tool_calls := some [badCall, wCall2] }

/-- A second response that itself requests a further tool call and carries
no text content. -/
def c5Resp2 : ChatMessage :=
  { role := .assistant, content := none, tool_calls := some [wCall1] }

/-- A first response requesting the coordinate call. -/
def coordResp : ChatMessage := { role := .assistant, tool_calls := some [coordCall] }

/-- A raw catalog entry lacking a `name`. -/
def namelessRaw : RawTool := { name := none, description := some "a tool" }

/-- A well-formed raw catalog entry. -/
def namedRaw : RawTool := { name := some "get_forecast", description := some "forecast" }

/-- A raw catalog entry declaring its own (non-coordinate) input schema. -/
def weirdRaw : RawTool :=
  { name := some "get_alerts", description := some "alerts",
    inputSchema := Json.obj [("type", Json.str "string")] }

/-- The tool declaration that `weirdRaw` turns into. -/
def weirdDecl : ToolDecl :=
  { name := some "get_alerts", description := "alerts",
    parameters := fixedParametersSchema, strict := false }

/-- An environment with a model-name override set. -/
def customEnv : Env := { OPENAI_MODEL := some "custom-model" }

/-! ## Behaviour of the dispatch loop -/

/-- Stepping the dispatch loop over one cleanly dispatching call: the
invocation is recorded and the transcript pair is appended, then the loop
continues on the rest. -/
theorem dispatchToolCalls_cons_ok (invoke : Invoker) (messages : List ChatMessage)
    (c : ToolCall) (rest : List ToolCall) (hc : callSucceeds invoke c) :
    dispatchToolCalls invoke messages (c :: rest)
      = ((c.function.name, parsedArgs c) ::
           (dispatchToolCalls invoke (messages ++ transcriptPair invoke c) rest).1,
         (dispatchToolCalls invoke (messages ++ transcriptPair invoke c) rest).2.1,
         (dispatchToolCalls invoke (messages ++ transcriptPair invoke c) rest).2.2) := by
  obtain ⟨⟨p, hp⟩, ⟨r, hr⟩⟩ := hc
  have hpv : parsedArgs c = p := by simp [parsedArgs, hp]
  have hres : invokeResult invoke c = r := by simp [invokeResult, hr]
  rw [hpv] at hr
  simp only [dispatchToolCalls, hp, hr, transcriptPair, hres, hpv]

/-- Running the dispatch loop over a cleanly dispatching prefix: the prefix's
invocations and transcript pairs accumulate in order, then the loop
continues on the rest. -/
theorem dispatchToolCalls_append_ok (invoke : Invoker) (messages : List ChatMessage)
    (pre rest : List ToolCall) (h : ∀ c ∈ pre, callSucceeds invoke c) :
    dispatchToolCalls invoke messages (pre ++ rest)
      = ((pre.map fun c => (c.function.name, parsedArgs c))
            ++ (dispatchToolCalls invoke (messages ++ pre.flatMap (transcriptPair invoke)) rest).1,
         (dispatchToolCalls invoke (messages ++ pre.flatMap (transcriptPair invoke)) rest).2.1,
         (dispatchToolCalls invoke (messages ++ pre.flatMap (transcriptPair invoke)) rest).2.2) := by
  induction pre generalizing messages with
  | nil => simp
  | cons c cs ih =>
    have hc := h c (by simp)
    rw [List.cons_append, dispatchToolCalls_cons_ok invoke messages c (cs ++ rest) hc]
    rw [ih (messages ++ transcriptPair invoke c) (fun d hd => h d (by simp [hd]))]
    simp [List.append_assoc]

/-- Running the dispatch loop when every call dispatches cleanly: all
invocations happen in call order and the transcript gains one
(assistant-call, tool-result) pair per call, in call order, with no error. -/
theorem dispatchToolCalls_all_ok (invoke : Invoker) (messages : List ChatMessage)
    (calls : List ToolCall) (h : ∀ c ∈ calls, callSucceeds invoke c) :
    dispatchToolCalls invoke messages calls
      = (calls.map fun c => (c.function.name, parsedArgs c),
         messages ++ calls.flatMap (transcriptPair invoke), none) := by
  have h2 := dispatchToolCalls_append_ok invoke messages calls [] h
  simpa [dispatchToolCalls] using h2

/-- A call with unparseable arguments at the head of the loop: no backend
invocation happens, nothing is appended, the error escapes. -/
theorem dispatchToolCalls_malformed_head (invoke : Invoker) (messages : List ChatMessage)
    (c : ToolCall) (rest : List ToolCall) (h : Json.parse c.function.arguments = none) :
    dispatchToolCalls invoke messages (c :: rest)
      = ([], messages, some (.malformedToolArguments c.function.name c.function.arguments)) := by
  simp [dispatchToolCalls, h]

/-- A failing backend invocation at the head of the loop: the invocation is
attempted but nothing is appended, and the error escapes. -/
theorem dispatchToolCalls_invoke_error_head (invoke : Invoker) (messages : List ChatMessage)
    (c : ToolCall) (rest : List ToolCall) (p : Json) (e : String)
    (hp : Json.parse c.function.arguments = some p) (he : invoke c.function.name p = .error e) :
    dispatchToolCalls invoke messages (c :: rest)
      = ([(c.function.name, p)], messages, some (.toolExecutionError c.function.name e)) := by
  simp [dispatchToolCalls, hp, he]

/-- `processQuery` when the dispatch loop throws: one request, the
invocations attempted so far, and the error rethrown. -/
theorem processQuery_of_dispatch_error (env : Env) (tools : List ChatTool) (query : String)
    (resp1 resp2 : ChatMessage) (invoke : Invoker) (calls : List ToolCall)
    (invs : List (String × Json)) (msgs : List ChatMessage) (e : QueryError)
    (hcalls : resp1.tool_calls = some calls)
    (hd : dispatchToolCalls invoke (initialMessages query) calls = (invs, msgs, some e)) :
    processQuery env tools query resp1 resp2 invoke
      = { requests := [firstRequest tools query], invocations := invs, result := .error e } := by
  simp [processQuery, hcalls, hd]

/-- `processQuery` when the dispatch loop completes: two requests, the
second without tool declarations over the extended transcript, and the
second response's content as the answer. -/
theorem processQuery_of_dispatch_ok (env : Env) (tools : List ChatTool) (query : String)
    (resp1 resp2 : ChatMessage) (invoke : Invoker) (calls : List ToolCall)
    (invs : List (String × Json)) (msgs : List ChatMessage)
    (hcalls : resp1.tool_calls = some calls)
    (hd : dispatchToolCalls invoke (initialMessages query) calls = (invs, msgs, none)) :
    processQuery env tools query resp1 resp2 invoke
      = { requests := [firstRequest tools query,
                       { model := secondRoundModel env, messages := msgs, tools := none }],
          invocations := invs, result := .ok (resp2.content.getD "") } := by
  simp [processQuery, hcalls, hd]

/-- Every request a `processQuery` run performs carries either the
registry's tool declarations (the first request) or no tool declarations at
all (the second request). -/
theorem processQuery_requests_tools (env : Env) (tools : List ChatTool) (query : String)
    (resp1 resp2 : ChatMessage) (invoke : Invoker) :
    ∀ req ∈ (processQuery env tools query resp1 resp2 invoke).requests,
      req.tools = some (toolDeclsOf tools) ∨ req.tools = none := by
  intro req hreq
  cases hr : resp1.tool_calls with
  | none =>
    simp only [processQuery, hr] at hreq
    simp only [List.mem_singleton] at hreq
    subst hreq
    exact Or.inl rfl
  | some calls =>
    simp only [processQuery, hr] at hreq
    rcases hd : dispatchToolCalls invoke (initialMessages query) calls with ⟨invs, msgs, oerr⟩
    rw [hd] at hreq
    cases oerr with
    | some e =>
      simp only [List.mem_singleton] at hreq
      subst hreq
      exact Or.inl rfl
    | none =>
      simp only [List.mem_cons, List.mem_singleton, List.not_mem_nil, or_false] at hreq
      rcases hreq with rfl | rfl
      · exact Or.inl rfl
      · exact Or.inr rfl

/-! ## C1 — transcript pairing and sequential dispatch -/

/-- C1: for a first response carrying N ≥ 1 tool calls that all dispatch
cleanly, `processQuery` invokes the backend once per call, in the order the
model emitted the calls, and the transcript resubmitted in the second round
is the system and user messages followed by exactly one
(assistant-carrying-that-one-call, tool-result) message pair per call, in
call order, the tool-result correlated by the paired call's id. -/
theorem processQuery_transcript_pairing
    (env : Env) (tools : List ChatTool) (query : String)
    (resp1 resp2 : ChatMessage) (invoke : Invoker) (calls : List ToolCall)
    (hcalls : resp1.tool_calls = some calls) (_hlen : 0 < calls.length)
    (hok : ∀ c ∈ calls, callSucceeds invoke c) :
    (processQuery env tools query resp1 resp2 invoke).invocations
        = calls.map (fun c => (c.function.name, parsedArgs c)) ∧
    (processQuery env tools query resp1 resp2 invoke).requests.map ChatRequest.messages
        = [initialMessages query,
           initialMessages query ++ calls.flatMap (transcriptPair invoke)] ∧
    (∀ c ∈ calls,
      (toolCallAssistantMsg c).tool_calls = some [c] ∧
      (toolResultMsg c (invokeResult invoke c)).tool_call_id = some c.id) := by
  have hd := dispatchToolCalls_all_ok invoke (initialMessages query) calls hok
  rw [processQuery_of_dispatch_ok env tools query resp1 resp2 invoke calls _ _ hcalls hd]
  exact ⟨rfl, rfl, fun c _ => ⟨rfl, rfl⟩⟩

/-- C1 witness: a two-call run against a concrete backend, with the
pairing facts instantiated at the first call. -/
theorem processQuery_transcript_pairing_witness :
    wResp1.tool_calls = some [wCall1, wCall2] ∧
    0 < ([wCall1, wCall2] : List ToolCall).length ∧
    (processQuery {} [] "What is the weather?" wResp1 wResp2 wInvoke).invocations
        = [wCall1, wCall2].map (fun c => (c.function.name, parsedArgs c)) ∧
    (processQuery {} [] "What is the weather?" wResp1 wResp2 wInvoke).requests.map
        ChatRequest.messages
      = [initialMessages "What is the weather?",
         initialMessages "What is the weather?" ++ [wCall1, wCall2].flatMap (transcriptPair wInvoke)] ∧
    (toolCallAssistantMsg wCall1).tool_calls = some [wCall1] ∧
    (toolResultMsg wCall1 (invokeResult wInvoke wCall1)).tool_call_id = some wCall1.id := by
  have h := processQuery_transcript_pairing {} [] "What is the weather?" wResp1 wResp2 wInvoke
    [wCall1, wCall2] rfl (by decide)
    (by
      intro c hc
      simp only [List.mem_cons, List.not_mem_nil, or_false] at hc
      rcases hc with rfl | rfl
      · exact ⟨⟨(Json.parse wCall1.function.arguments).getD Json.null, rfl⟩,
               ⟨Json.str "Sunny, 22C", rfl⟩⟩
      · exact ⟨⟨(Json.parse wCall2.function.arguments).getD Json.null, rfl⟩,
               ⟨Json.str "Sunny, 22C", rfl⟩⟩)
  exact ⟨rfl, by decide, h.1, h.2.1,
         (h.2.2 wCall1 (by simp)).1, (h.2.2 wCall1 (by simp)).2⟩

/-! ## C2 — behaviour when the first response carries no tool calls -/

/-- C2 counterexample: a first response whose `tool_calls` field is present
but an empty array carries no tool-call requests, yet `processQuery`
performs two chat-completion requests and returns the second response's
text, not the first response's. -/
theorem processQuery_empty_toolcalls_counterexample :
    c2Resp1.tool_calls = some [] ∧
    (processQuery {} [] "hi" c2Resp1 c2Resp2 wInvoke).requests.length = 2 ∧
    (processQuery {} [] "hi" c2Resp1 c2Resp2 wInvoke).result = .ok "second round answer" ∧
    c2Resp1.content = some "direct answer" ∧
    ("second round answer" : String) ≠ "direct answer" :=
  ⟨rfl, rfl, rfl, rfl, by decide⟩

/-- C2 (amended): when the first response's `tool_calls` field is absent
(as opposed to present but empty), `processQuery` performs exactly one
chat-completion request, makes no backend invocation, and returns exactly
the first response's text content — the empty string, not an error, when
that content is null/absent. -/
theorem processQuery_no_toolcalls (env : Env) (tools : List ChatTool) (query : String)
    (resp1 resp2 : ChatMessage) (invoke : Invoker)
    (h : resp1.tool_calls = none) :
    (processQuery env tools query resp1 resp2 invoke).requests
        = [firstRequest tools query] ∧
    (processQuery env tools query resp1 resp2 invoke).invocations = [] ∧
    (processQuery env tools query resp1 resp2 invoke).result
        = .ok (resp1.content.getD "") := by
  simp [processQuery, h]

/-- C2 witness: a response with neither `tool_calls` nor content yields one
request, no invocations, and the empty-string answer. -/
theorem processQuery_no_toolcalls_witness :
    c2RespNone.tool_calls = none ∧
    (processQuery {} [] "hello" c2RespNone c2Resp2 wInvoke).requests
        = [firstRequest [] "hello"] ∧
    (processQuery {} [] "hello" c2RespNone c2Resp2 wInvoke).invocations = [] ∧
    (processQuery {} [] "hello" c2RespNone c2Resp2 wInvoke).result = .ok "" := by
  have h := processQuery_no_toolcalls {} [] "hello" c2RespNone c2Resp2 wInvoke rfl
  exact ⟨rfl, h.1, h.2.1, h.2.2⟩

/-! ## C3 — a tool call with unparseable arguments -/

/-- C3 counterexample: with a first call whose arguments do not parse and a
second call that would dispatch cleanly, `processQuery` aborts the whole
query — no backend invocation at all, no second round, the error
propagates — rather than recovering at the level of the single call. -/
theorem processQuery_malformed_args_counterexample :
    Json.parse badCall.function.arguments = none ∧
    wInvoke wCall2.function.name (parsedArgs wCall2) = .ok (Json.str "Sunny, 22C") ∧
    (processQuery {} [] "hi" c3Resp1 wResp2 wInvoke).result
        = .error (.malformedToolArguments "get_forecast" "not json") ∧
    (processQuery {} [] "hi" c3Resp1 wResp2 wInvoke).invocations = [] ∧
    (processQuery {} [] "hi" c3Resp1 wResp2 wInvoke).requests.length = 1 :=
  ⟨rfl, rfl, rfl, rfl, rfl⟩

/-- C3 (amended): a tool call whose arguments string cannot be parsed
aborts the whole query at that call, exactly as a backend execution failure
does: the calls before it are dispatched and their pairs appended, the
remaining calls are never dispatched, no second round occurs, and the
malformed-arguments error surfaces to the caller. -/
theorem processQuery_malformed_args_aborts
    (env : Env) (tools : List ChatTool) (query : String)
    (resp1 resp2 : ChatMessage) (invoke : Invoker)
    (pre : List ToolCall) (bad : ToolCall) (rest : List ToolCall)
    (hcalls : resp1.tool_calls = some (pre ++ bad :: rest))
    (hpre : ∀ c ∈ pre, callSucceeds invoke c)
    (hbad : Json.parse bad.function.arguments = none) :
    (processQuery env tools query resp1 resp2 invoke).result
        = .error (.malformedToolArguments bad.function.name bad.function.arguments) ∧
    (processQuery env tools query resp1 resp2 invoke).invocations
        = pre.map (fun c => (c.function.name, parsedArgs c)) ∧
    (processQuery env tools query resp1 resp2 invoke).requests
        = [firstRequest tools query] := by
  have hd := dispatchToolCalls_append_ok invoke (initialMessages query) pre (bad :: rest) hpre
  rw [dispatchToolCalls_malformed_head invoke _ bad rest hbad] at hd
  rw [processQuery_of_dispatch_error env tools query resp1 resp2 invoke _ _ _ _ hcalls
    (by rw [hd])]
  exact ⟨rfl, by simp, rfl⟩

/-- C3 witness: the amended behaviour at a concrete run with an empty clean
prefix and one remaining call. -/
theorem processQuery_malformed_args_aborts_witness :
    c3Resp1.tool_calls = some ([] ++ badCall :: [wCall2]) ∧
    Json.parse badCall.function.arguments = none ∧
    (processQuery {} [] "hi3" c3Resp1 c2Resp2 wInvoke).result
        = .error (.malformedToolArguments badCall.function.name badCall.function.arguments) ∧
    (processQuery {} [] "hi3" c3Resp1 c2Resp2 wInvoke).invocations
        = ([] : List ToolCall).map (fun c => (c.function.name, parsedArgs c)) ∧
    (processQuery {} [] "hi3" c3Resp1 c2Resp2 wInvoke).requests = [firstRequest [] "hi3"] := by
  have h := processQuery_malformed_args_aborts {} [] "hi3" c3Resp1 c2Resp2 wInvoke
    [] badCall [wCall2] rfl (by intro c hc; simp at hc) rfl
  exact ⟨rfl, rfl, h.1, h.2.1, h.2.2⟩

/-! ## C4 — a failing backend invocation -/

/-- C4: the implementation follows the abort-on-failure policy,
consistently: whenever the backend invocation of a tool call fails (after a
cleanly dispatched prefix), no second chat round occurs and the
tool-execution error surfaces to the caller of `processQuery` with no
answer returned. -/
theorem processQuery_invoke_failure_aborts
    (env : Env) (tools : List ChatTool) (query : String)
    (resp1 resp2 : ChatMessage) (invoke : Invoker)
    (pre : List ToolCall) (bad : ToolCall) (rest : List ToolCall) (p : Json) (e : String)
    (hcalls : resp1.tool_calls = some (pre ++ bad :: rest))
    (hpre : ∀ c ∈ pre, callSucceeds invoke c)
    (hp : Json.parse bad.function.arguments = some p)
    (he : invoke bad.function.name p = .error e) :
    (processQuery env tools query resp1 resp2 invoke).result
        = .error (.toolExecutionError bad.function.name e) ∧
    (processQuery env tools query resp1 resp2 invoke).requests
        = [firstRequest tools query] ∧
    (processQuery env tools query resp1 resp2 invoke).invocations
        = pre.map (fun c => (c.function.name, parsedArgs c)) ++ [(bad.function.name, p)] := by
  have hd := dispatchToolCalls_append_ok invoke (initialMessages query) pre (bad :: rest) hpre
  rw [dispatchToolCalls_invoke_error_head invoke _ bad rest p e hp he] at hd
  rw [processQuery_of_dispatch_error env tools query resp1 resp2 invoke _ _ _ _ hcalls
    (by rw [hd])]
  exact ⟨rfl, rfl, rfl⟩

/-- C4 witness: a concrete run against a failing backend — the error
surfaces, only the first request happened, and only the failing invocation
was attempted. -/
theorem processQuery_invoke_failure_aborts_witness :
    wResp1.tool_calls = some ([] ++ wCall1 :: [wCall2]) ∧
    Json.parse wCall1.function.arguments = some (parsedArgs wCall1) ∧
    failingInvoke wCall1.function.name (parsedArgs wCall1) = .error "backend exploded" ∧
    (processQuery {} [] "hi4" wResp1 wResp2 failingInvoke).result
        = .error (.toolExecutionError wCall1.function.name "backend exploded") ∧
    (processQuery {} [] "hi4" wResp1 wResp2 failingInvoke).requests
        = [firstRequest [] "hi4"] ∧
    (processQuery {} [] "hi4" wResp1 wResp2 failingInvoke).invocations
        = [(wCall1.function.name, parsedArgs wCall1)] := by
  have h := processQuery_invoke_failure_aborts {} [] "hi4" wResp1 wResp2 failingInvoke
    [] wCall1 [wCall2] (parsedArgs wCall1) "backend exploded" rfl
    (by intro c hc; simp at hc) rfl rfl
  exact ⟨rfl, rfl, rfl, h.1, h.2.1, h.2.2⟩

/-! ## C5 — the second round carries no tools and is final -/

/-- C5: for a query that triggered at least one tool call (all dispatching
cleanly), the second chat request carries no tool declarations, no third
request is ever performed, and `processQuery` returns the second response's
text content (the empty string if null) whatever that response is — in
particular any further tool-call requests in it are ignored. -/
theorem processQuery_second_round_final
    (env : Env) (tools : List ChatTool) (query : String)
    (resp1 resp2 : ChatMessage) (invoke : Invoker) (calls : List ToolCall)
    (hcalls : resp1.tool_calls = some calls) (_hlen : 0 < calls.length)
    (hok : ∀ c ∈ calls, callSucceeds invoke c) :
    ∃ req2, (processQuery env tools query resp1 resp2 invoke).requests
        = [firstRequest tools query, req2] ∧
      req2.tools = none ∧
      (processQuery env tools query resp1 resp2 invoke).requests.length = 2 ∧
      (processQuery env tools query resp1 resp2 invoke).result
          = .ok (resp2.content.getD "") := by
  have hd := dispatchToolCalls_all_ok invoke (initialMessages query) calls hok
  rw [processQuery_of_dispatch_ok env tools query resp1 resp2 invoke calls _ _ hcalls hd]
  exact ⟨_, rfl, rfl, rfl, rfl⟩

/-- C5 witness: the second response itself requests a further tool call and
has null content — the request is ignored and the empty string is
returned after exactly two requests. -/
theorem processQuery_second_round_final_witness :
    wResp1.tool_calls = some [wCall1, wCall2] ∧
    c5Resp2.tool_calls = some [wCall1] ∧
    c5Resp2.content = none ∧
    (∃ req2, (processQuery {} [] "q5" wResp1 c5Resp2 wInvoke).requests
        = [firstRequest [] "q5", req2] ∧
      req2.tools = none ∧
      (processQuery {} [] "q5" wResp1 c5Resp2 wInvoke).requests.length = 2 ∧
      (processQuery {} [] "q5" wResp1 c5Resp2 wInvoke).result = .ok "") := by
  have h := processQuery_second_round_final {} [] "q5" wResp1 c5Resp2 wInvoke
    [wCall1, wCall2] rfl (by decide)
    (by
      intro c hc
      simp only [List.mem_cons, List.not_mem_nil, or_false] at hc
      rcases hc with rfl | rfl
      · exact ⟨⟨(Json.parse wCall1.function.arguments).getD Json.null, rfl⟩,
               ⟨Json.str "Sunny, 22C", rfl⟩⟩
      · exact ⟨⟨(Json.parse wCall2.function.arguments).getD Json.null, rfl⟩,
               ⟨Json.str "Sunny, 22C", rfl⟩⟩)
  exact ⟨rfl, rfl, rfl, h⟩

/-! ## C6 — registry population and malformed catalog entries -/

/-- C6 counterexample: a raw descriptor lacking a `name` is not skipped —
registry population is a plain `map`, so the nameless entry is registered
(with no name) alongside the well-formed one, and no warning path exists. -/
theorem registerTools_no_skip_counterexample :
    namelessRaw.name = none ∧
    (registerTools [namelessRaw, namedRaw]).length = 2 ∧
    ((registerTools [namelessRaw, namedRaw])[0]?).map (fun t => t.function.name)
        = some none ∧
    ((registerTools [namelessRaw, namedRaw])[1]?).map (fun t => t.function.name)
        = some (some "get_forecast") :=
  ⟨rfl, rfl, rfl, rfl⟩

/-- C6 (amended): registry population converts and registers every raw
descriptor unconditionally — one registered tool per catalog entry, with
the entry's name (possibly absent) carried over as-is; no entry is skipped
and no warning is logged, and consequently a malformed entry never aborts
the registry build. -/
theorem registerTools_registers_all (rawTools : List RawTool) :
    (registerTools rawTools).length = rawTools.length ∧
    ∀ i : Nat, ((registerTools rawTools)[i]?).map (fun t => t.function.name)
        = (rawTools[i]?).map RawTool.name := by
  constructor
  · simp [registerTools]
  · intro i
    simp [registerTools, List.getElem?_map, Option.map_map, convertRawTool]
    rfl

/-! ## C7 — the fixed parameter schema -/

/-- C7: every registered tool's parameter schema is the fixed
latitude/longitude schema — independent of the raw entries' declared
`inputSchema`, which is never forwarded — and every tool declaration
carried by any chat request of a `processQuery` run has that same fixed
schema. -/
theorem registry_and_request_schema_fixed (rawTools : List RawTool) (env : Env)
    (query : String) (resp1 resp2 : ChatMessage) (invoke : Invoker) :
    (∀ t ∈ registerTools rawTools, t.function.parameters = fixedParametersSchema) ∧
    (∀ req ∈ (processQuery env (registerTools rawTools) query resp1 resp2 invoke).requests,
      ∀ decls, req.tools = some decls → ∀ d ∈ decls, d.parameters = fixedParametersSchema) ∧
    registerTools rawTools
      = registerTools (rawTools.map fun t => { t with inputSchema := Json.null }) := by
  refine ⟨?_, ?_, ?_⟩
  · intro t ht
    simp only [registerTools, List.mem_map] at ht
    obtain ⟨r, _, rfl⟩ := ht
    rfl
  · intro req hreq decls hdecls d hd
    rcases processQuery_requests_tools env (registerTools rawTools) query resp1 resp2 invoke
        req hreq with h | h
    · rw [h] at hdecls
      injection hdecls with hdecls
      subst hdecls
      simp only [toolDeclsOf, List.mem_map] at hd
      obtain ⟨t, _, rfl⟩ := hd
      rfl
    · rw [h] at hdecls
      exact absurd hdecls (by simp)
  · simp [registerTools, convertRawTool]

/-- C7 witness: a catalog entry declaring its own string-typed input schema
is still registered with the fixed latitude/longitude schema, and the
declaration built from it for the first request carries the fixed schema
too. -/
theorem registry_and_request_schema_fixed_witness :
    weirdRaw.inputSchema = Json.obj [("type", Json.str "string")] ∧
    convertRawTool weirdRaw ∈ registerTools [weirdRaw] ∧
    (convertRawTool weirdRaw).function.parameters = fixedParametersSchema ∧
    (firstRequest (registerTools [weirdRaw]) "alerts?").tools
        = some (toolDeclsOf (registerTools [weirdRaw])) ∧
    weirdDecl ∈ toolDeclsOf (registerTools [weirdRaw]) ∧
    weirdDecl.parameters = fixedParametersSchema := by
  have h := registry_and_request_schema_fixed [weirdRaw] {} "alerts?" c2RespNone c2RespNone wInvoke
  refine ⟨rfl, List.mem_singleton.mpr rfl, ?_, rfl, List.mem_singleton.mpr rfl, ?_⟩
  · exact h.1 (convertRawTool weirdRaw) (List.mem_singleton.mpr rfl)
  · exact h.2.1 (firstRequest (registerTools [weirdRaw]) "alerts?")
      (List.mem_singleton.mpr rfl) (toolDeclsOf (registerTools [weirdRaw])) rfl
      weirdDecl (List.mem_singleton.mpr rfl)

/-! ## C8 — argument round-trip without coercion -/

/-- C8: for every tool call whose arguments string parses (in a run where
all calls dispatch cleanly), the structured object handed to the backend
invocation is exactly the parse of that arguments string, forwarded
verbatim in call order. -/
theorem processQuery_args_roundtrip (env : Env) (tools : List ChatTool) (query : String)
    (resp1 resp2 : ChatMessage) (invoke : Invoker) (calls : List ToolCall)
    (hcalls : resp1.tool_calls = some calls)
    (hok : ∀ c ∈ calls, callSucceeds invoke c) :
    (processQuery env tools query resp1 resp2 invoke).invocations
        = calls.map (fun c => (c.function.name, parsedArgs c)) ∧
    ∀ c ∈ calls, Json.parse c.function.arguments = some (parsedArgs c) := by
  have hd := dispatchToolCalls_all_ok invoke (initialMessages query) calls hok
  rw [processQuery_of_dispatch_ok env tools query resp1 resp2 invoke calls _ _ hcalls hd]
  refine ⟨rfl, ?_⟩
  intro c hc
  obtain ⟨⟨p, hp⟩, -⟩ := hok c hc
  simp [parsedArgs, hp]

/-- C8 witness: the arguments text carrying latitude 37.7 and longitude
-122.4 parses to an object whose fields are the JSON numbers 37.7 and
-122.4 (not strings), and that very object is what the backend invocation
receives. -/
theorem processQuery_args_roundtrip_witness :
    coordResp.tool_calls = some [coordCall] ∧
    Json.parse coordCall.function.arguments
        = some (Json.obj [("latitude", Json.num (mkRat 377 10)),
                          ("longitude", Json.num (mkRat (-1224) 10))]) ∧
    (processQuery {} [] "weather in sf" coordResp wResp2 wInvoke).invocations
        = [coordCall].map (fun c => (c.function.name, parsedArgs c)) ∧
    [coordCall].map (fun c => (c.function.name, parsedArgs c))
        = [("get_forecast",
            Json.obj [("latitude", Json.num (mkRat 377 10)),
                      ("longitude", Json.num (mkRat (-1224) 10))])] := by
  have h := processQuery_args_roundtrip {} [] "weather in sf" coordResp wResp2 wInvoke
    [coordCall] rfl
    (by
      intro c hc
      simp only [List.mem_singleton] at hc
      subst hc
      exact ⟨⟨(Json.parse coordCall.function.arguments).getD Json.null, rfl⟩,
             ⟨Json.str "Sunny, 22C", rfl⟩⟩)
  exact ⟨rfl, rfl, h.1, rfl⟩

/-! ## C9 — model identifiers of the two rounds -/

/-- C9 counterexample: with the environment override set to
"custom-model", the first-round request still carries the hard-coded model
identifier, which differs from the override — so it is not true that every
request uses the override, nor that both rounds use the same model. -/
theorem processQuery_model_counterexample :
    customEnv.OPENAI_MODEL = some "custom-model" ∧
    (processQuery customEnv [] "q9" wResp1 wResp2 wInvoke).requests.map ChatRequest.model
        = ["deepseek-ai/DeepSeek-V2.5", "custom-model"] ∧
    ("deepseek-ai/DeepSeek-V2.5" : String) ≠ "custom-model" :=
  ⟨rfl, rfl, by decide⟩

/-- C9 (amended): the first-round request always carries the hard-coded
model identifier `deepseek-ai/DeepSeek-V2.5`, ignoring the environment;
only the second-round request, when it happens, carries the environment
override (defaulting to `gpt-4` when unset). -/
theorem processQuery_model_selection (env : Env) (tools : List ChatTool) (query : String)
    (resp1 resp2 : ChatMessage) (invoke : Invoker) :
    (processQuery env tools query resp1 resp2 invoke).requests.map ChatRequest.model
        = [firstRoundModel]
    ∨ (processQuery env tools query resp1 resp2 invoke).requests.map ChatRequest.model
        = [firstRoundModel, secondRoundModel env] := by
  cases hr : resp1.tool_calls with
  | none =>
    left
    simp [processQuery, hr, firstRequest]
  | some calls =>
    rcases hd : dispatchToolCalls invoke (initialMessages query) calls with ⟨invs, msgs, oerr⟩
    cases oerr with
    | some e =>
      left
      rw [processQuery_of_dispatch_error env tools query resp1 resp2 invoke calls invs msgs e hr hd]
      rfl
    | none =>
      right
      rw [processQuery_of_dispatch_ok env tools query resp1 resp2 invoke calls invs msgs hr hd]
      rfl

/-! ## C10 — server-script dispatch in connectToServer -/

/-- A path ending in ".js" cannot also end in ".py". -/
theorem strEndsWith_js_not_py (p : String) (h : strEndsWith p ".js" = true) :
    strEndsWith p ".py" = false := by
  cases hpy : strEndsWith p ".py" with
  | false => rfl
  | true =>
    exfalso
    have hjs : ".js".data <:+ p.data := List.isSuffixOf_iff_suffix.mp h
    have hpy2 : ".py".data <:+ p.data := List.isSuffixOf_iff_suffix.mp hpy
    rcases List.suffix_or_suffix_of_suffix hjs hpy2 with h2 | h2
    · exact absurd (List.isSuffixOf_iff_suffix.mpr h2) (by decide)
    · exact absurd (List.isSuffixOf_iff_suffix.mpr h2) (by decide)

/-- C10: a server path ending in neither ".js" nor ".py" makes
`connectToServer` throw before any transport or process is created (the
error outcome carries no spawn command and no registry); a path ending in
".py" selects the `python` command, and one ending in ".js" selects
`node`. -/
theorem connectToServer_command_dispatch (serverPath : String) (rawTools : List RawTool) :
    (strEndsWith serverPath ".js" = false → strEndsWith serverPath ".py" = false →
      connectToServer serverPath rawTools
        = .error "Server script must be a .py or .js file") ∧
    (strEndsWith serverPath ".py" = true →
      connectToServer serverPath rawTools
        = .ok { command := "python", registeredTools := registerTools rawTools }) ∧
    (strEndsWith serverPath ".js" = true →
      connectToServer serverPath rawTools
        = .ok { command := "node", registeredTools := registerTools rawTools }) := by
  refine ⟨?_, ?_, ?_⟩
  · intro hjs hpy
    simp [connectToServer, hjs, hpy]
  · intro hpy
    simp [connectToServer, hpy]
  · intro hjs
    have hpy := strEndsWith_js_not_py serverPath hjs
    simp [connectToServer, hjs, hpy]

/-- C10 witness: the three suffix cases at concrete paths. -/
theorem connectToServer_command_dispatch_witness :
    strEndsWith "weather.py" ".py" = true ∧
    connectToServer "weather.py" []
        = .ok { command := "python", registeredTools := [] } ∧
    strEndsWith "weather.js" ".js" = true ∧
    connectToServer "weather.js" []
        = .ok { command := "node", registeredTools := [] } ∧
    strEndsWith "weather.txt" ".js" = false ∧
    strEndsWith "weather.txt" ".py" = false ∧
    connectToServer "weather.txt" []
        = .error "Server script must be a .py or .js file" := by
  refine ⟨by decide, ?_, by decide, ?_, by decide, by decide, ?_⟩
  · exact (connectToServer_command_dispatch "weather.py" []).2.1 (by decide)
  · exact (connectToServer_command_dispatch "weather.js" []).2.2 (by decide)
  · exact (connectToServer_command_dispatch "weather.txt" []).1 (by decide) (by decide)

end MCPDemo
